import Mathlib

/-!
Verification of the `pereggrn_networks` module (file `pereggrn_networks.py`):
a shallow embedding of the `LightNetwork` class and of the free functions
`list_subnetworks` and `validate_grn`, followed by theorems about them.

Modelling conventions:
  - A parquet file (and the optional in-memory pandas DataFrame) is a `Table`:
    a list of column names plus a list of rows.  Rows always carry all four
    fields; a table lacking the `cell_type` column simply does not list it in
    `columns` (its rows hold the defaulted value, which no operation projects
    unless the column is listed).
  - `weight` is modelled as `Int`.  The code never computes with weights; they
    only participate in whole-row equality (SQL `UNION` deduplication), so any
    type with decidable equality is a faithful stand-in for the float column.
  - The filesystem is a function `FS := String -> Option Table` (`none` means
    the path does not exist).  `os.environ` together with `os.listdir` is the
    `Env` structure.
  - Python exceptions become the `Err` inductive, returned through `Except`.
    `ValueError`/`AssertionError` on arguments map to `invalidArgument`,
    `FileNotFoundError` to `notFound`, the column-contract assertion to
    `schemaError`, an uncaught `KeyError` on `GRN_PATH` to `configError`,
    invalid pandas indexing or a bad call signature to `typeError`, the
    intended integrity failure of `validate_grn` to `validationError`, and a
    DuckDB syntax error on a corrupted interpolated query to `parserError`.
  - `get_regulators`/`get_targets` build their predicate by interpolating the
    filter value into the query text (`WHERE target = ... {target} ...`); a
    value containing a quote character corrupts the predicate.  The embedding
    reproduces this: the interpolated fragment is re-parsed by a model of the
    relevant slice of the SQL grammar (quoted literal with doubled-quote
    escapes, optionally followed by one injected `OR lit = lit` clause; any
    further continuation is a parser error).  For quote-free values this
    parses back to exact equality, matching DuckDB; DuckDB accepts some
    continuations beyond the modelled slice, but no theorem below evaluates
    the embedding on such values.
  - DuckDB executes `q1 UNION q2 UNION ...` with SQL set semantics: the result
    holds each distinct row once.  SQL leaves the row order unspecified; the
    embedding normalises it as `List.dedup` of the concatenation, which has
    exactly the right multiset of rows.  When the query list is a singleton the
    code never emits the `UNION` keyword, so no deduplication happens: this is
    the `unionQuery` function below.
-/

namespace Pereggrn

/-- Python exceptions raised by the module, per the error taxonomy. -/
inductive Err where
  | invalidArgument
  | notFound
  | schemaError
  | configError
  | typeError
  | validationError
  | parserError
deriving DecidableEq

/-- One edge record: `(regulator, target, weight, cell_type)`. -/
structure Row where
  regulator : String
  target : String
  weight : Int
  cell_type : String
deriving DecidableEq

/-- A tabular constituent (a parquet file or the in-memory DataFrame):
column names in order, plus rows. -/
structure Table where
  columns : List String
  rows : List Row
deriving DecidableEq

/-- The filesystem: maps a path to the table stored there, `none` if absent. -/
def FS : Type := String → Option Table

/-- Process environment: the `GRN_PATH` variable and `os.listdir` over
directory paths (`none` when the directory does not exist). -/
structure Env where
  grnPath : Option String
  listing : String → Option (List String)

/-- A constructed `LightNetwork`: the resolved file list and the optional
in-memory DataFrame, exactly the `self.files` / `self.df` attributes. -/
structure LightNetwork where
  files : List String
  df : Option Table
deriving DecidableEq

/-- Reading a file DuckDB scans; construction has checked existence, so the
default for a vanished path is the empty table. -/
def readTable (fs : FS) (p : String) : Table :=
  (fs p).getD ⟨[], []⟩

/-- Result rows of `" UNION ".join(queries)` executed by DuckDB, where each
element of `qs` is the result of one `SELECT`.  A singleton list emits no
`UNION` keyword (bag semantics); two or more queries are joined by SQL
`UNION`, which returns each distinct row once (set semantics). -/
def unionQuery {α : Type} [DecidableEq α] (qs : List (List α)) : List α :=
  match qs with
  | [] => []
  | [q] => q
  | qs => qs.flatten.dedup

/-- `list_subnetworks(grn_name)`: lists non-hidden entries of
`GRN_PATH/grn_name/networks`; a `KeyError` (unset `GRN_PATH`) or
`FileNotFoundError` is caught and re-raised as `FileNotFoundError`. -/
def list_subnetworks (env : Env) (grn_name : String) : Except Err (List String) :=
  match env.grnPath with
  | none => .error .notFound
  | some root =>
    match env.listing (root ++ "/" ++ grn_name ++ "/networks") with
    | none => .error .notFound
    | some entries => .ok (entries.filter (fun f => !f.startsWith "."))

/-- Lines 37-40 of `__init__`: when `grn_name` is given, default the
subnetwork list via `list_subnetworks`, then append the joined paths
(`os.environ["GRN_PATH"]` is read again, uncaught this time) to `files`. -/
def resolveFiles (env : Env) (grn_name : Option String)
    (subnetwork_names files : List String) : Except Err (List String) :=
  match grn_name with
  | none => .ok files
  | some g =>
    match (if subnetwork_names.isEmpty then list_subnetworks env g
           else .ok subnetwork_names) with
    | .error e => .error e
    | .ok sns =>
      match env.grnPath with
      | none => .error .configError
      | some root =>
        .ok (files ++ sns.map (fun s => root ++ "/" ++ g ++ "/networks/" ++ s))

/-- The two column assertions of `__init__` (lines 44-45): the first three
columns are `regulator`, `target`, `weight`, and either there is no fourth
column or it is `cell_type`. -/
def schemaOk (t : Table) : Bool :=
  t.columns.take 3 = ["regulator", "target", "weight"] &&
    (t.columns.length == 3 || t.columns.get? 3 == some "cell_type")

/-- The schema assertions run only when a DataFrame was supplied. -/
def dfSchemaOk (df : Option Table) : Bool :=
  match df with
  | none => true
  | some t => schemaOk t

/-- `LightNetwork.__init__`, in the exact order of the source: the
subnetworks-without-source check, source resolution, the at-least-one-input
check, the DataFrame schema assertions, and the per-file existence check. -/
def init (fs : FS) (env : Env) (grn_name : Option String)
    (subnetwork_names files : List String) (df : Option Table) :
    Except Err LightNetwork :=
  if grn_name = none ∧ subnetwork_names ≠ [] then .error .invalidArgument
  else
    match resolveFiles env grn_name subnetwork_names files with
    | .error e => .error e
    | .ok fl =>
      if fl = [] ∧ df = none then .error .invalidArgument
      else if ¬ dfSchemaOk df then .error .schemaError
      else if fl.all (fun f => (fs f).isSome) then .ok ⟨fl, df⟩
      else .error .notFound

/-- `LightNetwork.copy`: re-runs the constructor on the same `files` list and
the same `df` reference (`LightNetwork(files=self.files, df=self.df)`). -/
def copy (fs : FS) (env : Env) (net : LightNetwork) : Except Err LightNetwork :=
  init fs env none [] net.files net.df

/-- Rows of the in-memory DataFrame, empty when absent. -/
def dfRows (net : LightNetwork) : List Row :=
  match net.df with
  | none => []
  | some t => t.rows

/-- `LightNetwork.get_all`: one `SELECT * FROM file` per parquet file joined
by `UNION`, then `SELECT * FROM df`, concatenated by `pd.concat` in that
order. -/
def get_all (fs : FS) (net : LightNetwork) : List Row :=
  unionQuery (net.files.map (fun p => (readTable fs p).rows)) ++ dfRows net

/-- The single-quote character, written numerically. -/
def sq : Char := Char.ofNat 39

/-- Lex the body of a SQL single-quoted string, the opening quote already
consumed: a doubled quote is the escape for one quote character; an undoubled
quote closes the literal.  Returns the contents and what follows the closing
quote; `none` when the literal is unterminated. -/
def lexQuoted : List Char → Option (List Char × List Char)
  | [] => none
  | [c] => if c = sq then some ([], []) else none
  | c :: c2 :: cs =>
    if c = sq then
      if c2 = sq then (lexQuoted cs).map (fun sr => (sq :: sr.1, sr.2))
      else some ([], c2 :: cs)
    else (lexQuoted (c2 :: cs)).map (fun sr => (c :: sr.1, sr.2))

/-- Skip leading spaces. -/
def skipSpaces : List Char → List Char
  | [] => []
  | c :: cs => if c = ' ' then skipSpaces cs else c :: cs

/-- The interpolated `WHERE col = ... ` predicate as DuckDB parses it: the
literal the template ends up quoting, plus at most one injected
`OR lit = lit` clause. -/
structure ParsedPred where
  lit : String
  orClause : Option (String × String)
deriving DecidableEq

/-- Parse what follows the first string literal of the interpolated
predicate: nothing, or one injected `OR lit = lit` clause.  This is the
slice of the SQL grammar the theorems below evaluate; any other continuation
is reported as a parser error (`none`). -/
def parsePredTail (cs : List Char) : Option (Option (String × String)) :=
  match cs with
  | [] => some none
  | _ =>
    match skipSpaces cs with
    | 'O' :: 'R' :: rest1 =>
      match skipSpaces rest1 with
      | q1 :: rest2 =>
        if q1 = sq then
          match lexQuoted rest2 with
          | some (a, rest3) =>
            match skipSpaces rest3 with
            | e :: rest4 =>
              if e = '=' then
                match skipSpaces rest4 with
                | q2 :: rest5 =>
                  if q2 = sq then
                    match lexQuoted rest5 with
                    | some (b, rest6) =>
                      if rest6 = [] then some (some (⟨a⟩, ⟨b⟩)) else none
                    | none => none
                  else none
                | [] => none
              else none
            | [] => none
          | none => none
        else none
      | [] => none
    | _ => none

/-- Parsing the data-dependent tail of the interpolated query
`... WHERE col = ⟨quote⟩{v}⟨quote⟩`: everything up to `col = ` and the
opening quote is fixed template text, so the character stream to re-parse is
`v` followed by the closing quote the template appends. -/
def parseInterpolated (v : String) : Option ParsedPred :=
  match lexQuoted (v.data ++ [sq]) with
  | none => none
  | some (litBody, rest) =>
    match parsePredTail rest with
    | none => none
    | some orc => some ⟨⟨litBody⟩, orc⟩

/-- Evaluating the parsed predicate on one column value (`=` binds tighter
than `OR`, and the injected comparison is between two constants). -/
def evalPred (p : ParsedPred) (x : String) : Bool :=
  x == p.lit ||
    (match p.orClause with
     | some ab => ab.1 == ab.2
     | none => false)

/-- The shared shape of the two filtered queries: the predicate pushed into
every file query (joined by `UNION`) and into the DataFrame query, results
concatenated by `pd.concat` in that order. -/
def filterQuery (fs : FS) (net : LightNetwork) (pred : Row → Bool) :
    List Row :=
  unionQuery (net.files.map
      (fun p => (readTable fs p).rows.filter pred)) ++
    (dfRows net).filter pred

/-- `LightNetwork.get_regulators(target)`: when no constituent is present no
query text is ever built; otherwise the interpolated predicate
`WHERE target = ...` is parsed (a corrupted interpolation raises a DuckDB
parser error) and pushed into every constituent query. -/
def get_regulators (fs : FS) (net : LightNetwork) (target : String) :
    Except Err (List Row) :=
  if net.files = [] ∧ net.df = none then .ok []
  else
    match parseInterpolated target with
    | none => .error .parserError
    | some p => .ok (filterQuery fs net (fun r => evalPred p r.target))

/-- `LightNetwork.get_targets(regulator)`: symmetric to `get_regulators`,
with the interpolated predicate `WHERE regulator = ...`. -/
def get_targets (fs : FS) (net : LightNetwork) (regulator : String) :
    Except Err (List Row) :=
  if net.files = [] ∧ net.df = none then .ok []
  else
    match parseInterpolated regulator with
    | none => .error .parserError
    | some p => .ok (filterQuery fs net (fun r => evalPred p r.regulator))

/-- Projection of one queryable column out of a row, used by
`SELECT DISTINCT {field} FROM ...`. -/
def projField (field : String) (r : Row) : String :=
  if field = "regulator" then r.regulator
  else if field = "target" then r.target
  else r.cell_type

/-- The DataFrame leg of `get_all_one_field` (lines 172-175): when a
DataFrame is present and has the column, `SELECT DISTINCT field FROM df`;
otherwise the initial empty frame. -/
def dfOneField (field : String) (df : Option Table) : List String :=
  match df with
  | some t =>
    if field ∈ t.columns then (t.rows.map (projField field)).dedup else []
  | none => []

/-- `LightNetwork.get_all_one_field(field)`: asserts the field is queryable,
keeps only the files whose column list contains the field, runs
`SELECT DISTINCT field` on each, joins the file queries by `UNION`, appends
the DataFrame result, and finally applies `.unique()` / `set(...)`
(one more deduplication). -/
def get_all_one_field (fs : FS) (net : LightNetwork) (field : String) :
    Except Err (List String) :=
  if field = "regulator" ∨ field = "target" ∨ field = "cell_type" then
    .ok ((unionQuery
            (((net.files.map (readTable fs)).filter
                (fun t => decide (field ∈ t.columns))).map
              (fun t => (t.rows.map (projField field)).dedup)) ++
          dfOneField field net.df).dedup)
  else .error .invalidArgument

/-- `LightNetwork.get_all_regulators`: alias for
`get_all_one_field("regulator")`. -/
def get_all_regulators (fs : FS) (net : LightNetwork) : Except Err (List String) :=
  get_all_one_field fs net "regulator"

/-- `LightNetwork.get_num_edges`: `SELECT COUNT(*)` over the `UNION` of the
file queries, plus `SELECT COUNT(*) FROM df`. -/
def get_num_edges (fs : FS) (net : LightNetwork) : Nat :=
  (unionQuery (net.files.map (fun p => (readTable fs p).rows))).length +
    (dfRows net).length

/-- Python `str.lower()`: per-character lowercasing. -/
def pyLower (s : String) : String :=
  ⟨s.data.map Char.toLower⟩

/-- Python `str.endswith(suffix)`. -/
def pyEndsWith (s suffix : String) : Bool :=
  suffix.data.isSuffixOf s.data

/-- `LightNetwork.save(filename)`: rejects a filename whose lowercase form
does not end in `.parquet`, otherwise writes the `get_all` result; the rows
written are returned to make the output observable. -/
def save (fs : FS) (net : LightNetwork) (filename : String) :
    Except Err (List Row) :=
  if pyEndsWith (pyLower filename) ".parquet" then .ok (get_all fs net)
  else .error .invalidArgument

/-- The row lists of all constituents, in constituent order
(files first, then the in-memory DataFrame when present). -/
def constituentRows (fs : FS) (net : LightNetwork) : List (List Row) :=
  net.files.map (fun p => (readTable fs p).rows) ++
    (match net.df with
     | none => []
     | some t => [t.rows])

/-- The constituent tables themselves (with their column lists), files first,
then the in-memory DataFrame when present. -/
def constituentTables (fs : FS) (net : LightNetwork) : List Table :=
  net.files.map (readTable fs) ++ net.df.toList

/-- No two distinct constituents share a row: the "no genuinely overlapping
content" hypothesis of the spec. -/
def NoOverlap (fs : FS) (net : LightNetwork) : Prop :=
  (constituentRows fs net).Pairwise (fun a b => ∀ r ∈ a, r ∉ b)

/-- `grn_df[:, "regulator"]` (line 306): pandas `DataFrame.__getitem__` with
a `(slice, str)` tuple key raises `TypeError` (a slice is unhashable when
looked up in the column index); the code needed `.loc`. -/
def dfGetItemSliceCol (t : Table) (col : String) : Except Err (List String) :=
  .error .typeError

/-- `validate_grn(grn_name, subnetwork_name, grn_df)`: when `grn_df` is
omitted it calls `load_grn_by_subnetwork(..., do_validate=False)`, which
raises `TypeError` because that function accepts no such keyword; otherwise
it evaluates `grn_df[:, "regulator"]` and `grn_df[:, "target"]`, compares the
distinct counts, raising `ValueError` when regulators outnumber targets,
asserts the column contract, and returns `True`. -/
def validate_grn (grn_name subnetwork_name : String) (grn_df : Option Table) :
    Except Err Bool :=
  match grn_df with
  | none => .error .typeError
  | some t =>
    match dfGetItemSliceCol t "regulator" with
    | .error e => .error e
    | .ok regs =>
      match dfGetItemSliceCol t "target" with
      | .error e => .error e
      | .ok tgts =>
        if regs.dedup.length > tgts.dedup.length then .error .validationError
        else if t.columns.take 3 = ["regulator", "target", "weight"] then .ok true
        else .error .invalidArgument

/-! Concrete fixtures used by counterexamples and witnesses. -/

/-- A single well-formed edge row. -/
def rowG1 : Row := ⟨"TF1", "G1", 1, ""⟩

/-- A well-formed three-column table with one row. -/
def tGood : Table := ⟨["regulator", "target", "weight"], [rowG1]⟩

/-- A table whose columns violate the contract. -/
def tBadCols : Table := ⟨["foo", "bar"], []⟩

/-- The duplicated edge row of the failing input for bag semantics. -/
def rowAB : Row := ⟨"a", "b", 1, ""⟩

/-- A one-row table holding `rowAB`. -/
def tAB : Table := ⟨["regulator", "target", "weight"], [rowAB]⟩

/-- A filesystem holding `tAB` at two distinct paths. -/
def fsDup : FS := fun p =>
  if p = "f1" then some tAB else if p = "f2" then some tAB else none

/-- The network over the two duplicated files. -/
def netDup : LightNetwork := ⟨["f1", "f2"], none⟩

/-- A filesystem holding only `tGood` at one path. -/
def fsOne : FS := fun p => if p = "a.parquet" then some tGood else none

/-- The network over that single file. -/
def netOne : LightNetwork := ⟨["a.parquet"], none⟩

/-- A filesystem holding the contract-violating table at one path. -/
def fsBad : FS := fun p => if p = "bad.parquet" then some tBadCols else none

/-- An environment with `GRN_PATH` unset and no directories. -/
def envEmpty : Env := ⟨none, fun _ => none⟩

/-- An empty filesystem. -/
def fsEmpty : FS := fun _ => none

/-- The quote character as a one-character string, for building fixtures. -/
def sqStr : String := ⟨[sq]⟩

/-- The canonical injected filter value of the spec (a value containing
quote characters): interpolating it produces the predicate text
`target = (q)x(q) OR (q)1(q)=(q)1(q)` with `(q)` the quote, which is true of
every row. -/
def vInj : String :=
  "x" ++ sqStr ++ " OR " ++ sqStr ++ "1" ++ sqStr ++ "=" ++ sqStr ++ "1"

/-! Helper lemmas shared by the claim theorems. -/

/-- A row is in the result of a joined `UNION` query iff it is in one of the
constituent query results: deduplication never changes membership. -/
theorem mem_unionQuery {α : Type} [DecidableEq α] {qs : List (List α)} {a : α} :
    a ∈ unionQuery qs ↔ ∃ q ∈ qs, a ∈ q := by
  match qs with
  | [] => simp [unionQuery]
  | [q] => simp [unionQuery]
  | q₁ :: q₂ :: rest => simp [unionQuery, List.mem_dedup, List.mem_flatten]

/-- Unfolding membership in the constituent row lists. -/
theorem mem_constituentRows {fs : FS} {net : LightNetwork} {rs : List Row} :
    rs ∈ constituentRows fs net ↔
      (∃ p ∈ net.files, rs = (readTable fs p).rows) ∨
        (∃ t, net.df = some t ∧ rs = t.rows) := by
  cases hdf : net.df <;>
    simp [constituentRows, hdf, eq_comm]

/-- Unfolding membership in the constituent tables. -/
theorem mem_constituentTables {fs : FS} {net : LightNetwork} {t : Table} :
    t ∈ constituentTables fs net ↔
      (∃ p ∈ net.files, t = readTable fs p) ∨ net.df = some t := by
  cases hdf : net.df <;>
    simp [constituentTables, hdf, eq_comm]

/-- Membership in a pushed-down filtered query, split into the file block
and the DataFrame block. -/
theorem mem_filterQuery {fs : FS} {net : LightNetwork} {pred : Row → Bool}
    {r : Row} :
    r ∈ filterQuery fs net pred ↔
      ((∃ p ∈ net.files, r ∈ (readTable fs p).rows) ∨ r ∈ dfRows net) ∧
        pred r = true := by
  simp only [filterQuery, List.mem_append, mem_unionQuery, List.mem_map]
  constructor
  · rintro (⟨q, ⟨p, hp, hq⟩, hr⟩ | hr)
    · subst hq
      obtain ⟨hr, ht⟩ := List.mem_filter.mp hr
      exact ⟨.inl ⟨p, hp, hr⟩, ht⟩
    · obtain ⟨hr, ht⟩ := List.mem_filter.mp hr
      exact ⟨.inr hr, ht⟩
  · rintro ⟨(⟨p, hp, hr⟩ | hr), ht⟩
    · exact .inl ⟨_, ⟨p, hp, rfl⟩, List.mem_filter.mpr ⟨hr, ht⟩⟩
    · exact .inr (List.mem_filter.mpr ⟨hr, ht⟩)

/-- Lexing a quote-free literal body followed by the closing quote the
template appends consumes exactly the body. -/
theorem lexQuoted_no_quote {v : List Char} (h : sq ∉ v) :
    lexQuoted (v ++ [sq]) = some (v, []) := by
  induction v with
  | nil => simp [lexQuoted]
  | cons c cs ih =>
    have hc : c ≠ sq := fun hh => h (by simp [hh])
    have hcs : sq ∉ cs := fun hh => h (List.mem_cons_of_mem _ hh)
    cases cs with
    | nil => simp [lexQuoted, hc]
    | cons c2 cs2 =>
      have htail := ih hcs
      simp only [List.cons_append] at htail ⊢
      rw [lexQuoted, if_neg hc, htail]
      rfl

/-- A quote-free value parses back to itself with no injected clause: the
interpolated predicate is the intended exact equality. -/
theorem parseInterpolated_no_quote {v : String} (h : sq ∉ v.data) :
    parseInterpolated v = some ⟨v, none⟩ := by
  unfold parseInterpolated
  rw [lexQuoted_no_quote h]
  rfl

/-- With no injected clause the parsed predicate is equality with the
literal. -/
theorem evalPred_no_clause {v x : String} :
    evalPred ⟨v, none⟩ x = (x == v) := by
  simp [evalPred]

/-- A row lies in some constituent iff it lies in some file or in the
DataFrame. -/
theorem exists_constituent_iff {fs : FS} {net : LightNetwork} {r : Row} :
    (∃ rs ∈ constituentRows fs net, r ∈ rs) ↔
      (∃ p ∈ net.files, r ∈ (readTable fs p).rows) ∨ r ∈ dfRows net := by
  cases hdf : net.df
  · simp [constituentRows, dfRows, hdf]
  · simp only [constituentRows, dfRows, hdf, List.mem_append, List.mem_map,
      List.mem_singleton, exists_exists_and_eq_and]
    aesop

/-- Pulling a row-level predicate out of the constituent existential. -/
theorem exists_mem_and_iff {C : List (List Row)} {r : Row} {P : Prop} :
    (∃ rs ∈ C, r ∈ rs ∧ P) ↔ (∃ rs ∈ C, r ∈ rs) ∧ P := by
  constructor
  · rintro ⟨rs, h1, h2, h3⟩
    exact ⟨⟨rs, h1, h2⟩, h3⟩
  · rintro ⟨⟨rs, h1, h2⟩, h3⟩
    exact ⟨rs, h1, h2, h3⟩

/-- Membership in the file leg of `get_all_one_field`: a value appears iff
some file has the column and a row projecting to the value. -/
theorem mem_one_field_files {fs : FS} {files : List String}
    {field s : String} :
    s ∈ unionQuery (((files.map (readTable fs)).filter
          (fun t => decide (field ∈ t.columns))).map
        (fun t => (t.rows.map (projField field)).dedup)) ↔
      ∃ t, (t ∈ files.map (readTable fs) ∧ field ∈ t.columns) ∧
        ∃ r ∈ t.rows, projField field r = s := by
  rw [mem_unionQuery]
  constructor
  · rintro ⟨q, hq, hs⟩
    obtain ⟨t, ht, rfl⟩ := List.mem_map.mp hq
    obtain ⟨ht1, ht2⟩ := List.mem_filter.mp ht
    rw [List.mem_dedup] at hs
    obtain ⟨r, hr, hrs⟩ := List.mem_map.mp hs
    exact ⟨t, ⟨ht1, by simpa using ht2⟩, r, hr, hrs⟩
  · rintro ⟨t, ⟨ht1, ht2⟩, r, hr, hrs⟩
    refine ⟨_, List.mem_map_of_mem _ (List.mem_filter.mpr
      ⟨ht1, by simpa using ht2⟩), ?_⟩
    rw [List.mem_dedup]
    exact List.mem_map.mpr ⟨r, hr, hrs⟩

/-- Membership in the DataFrame leg of `get_all_one_field`. -/
theorem mem_dfOneField {field s : String} {df : Option Table} :
    s ∈ dfOneField field df ↔
      ∃ t, df = some t ∧ field ∈ t.columns ∧
        ∃ r ∈ t.rows, projField field r = s := by
  cases df
  case none => simp [dfOneField]
  case some t =>
    by_cases hft : field ∈ t.columns
    · simp [dfOneField, hft, List.mem_dedup]
    · simp [dfOneField, hft]

/-- Inversion of a successful construction: the stored DataFrame is the
argument, the at-least-one-input check, the schema check and the existence
check all passed. -/
theorem init_ok_inv {fs : FS} {env : Env} {gn : Option String}
    {sns files : List String} {df : Option Table} {net : LightNetwork}
    (h : init fs env gn sns files df = .ok net) :
    net.df = df ∧ ¬(net.files = [] ∧ df = none) ∧ dfSchemaOk df = true ∧
      net.files.all (fun f => (fs f).isSome) = true := by
  unfold init at h
  split at h
  · exact absurd h (by simp)
  · split at h
    · exact absurd h (by simp)
    · split at h
      · exact absurd h (by simp)
      · split at h
        · exact absurd h (by simp)
        · split at h
          · cases h
            next hcond hschema hall =>
              exact ⟨rfl, hcond, by simpa using hschema, hall⟩
          · exact absurd h (by simp)

/-! The claim theorems. -/

/-- C1: the claim states bag semantics for `get_all` and `get_num_edges`
(a row appearing once in each of two constituents shows up twice and counts
twice).  The code joins the per-file queries with SQL `UNION`, which
deduplicates, so on two files each holding the single row `rowAB` the union
returns the row once and the edge count is 1, not 2: this theorem evaluates
the code at that failing input. -/
theorem c1_union_across_files_deduplicates :
    get_all fsDup netDup = [rowAB] ∧ get_num_edges fsDup netDup = 1 :=
  ⟨by decide, by decide⟩

/-- C4: `get_num_edges` equals the row count of `get_all` whenever no two
constituents overlap (in fact the two sides apply the identical `UNION` to
the files and then add the DataFrame rows, so they agree unconditionally;
the no-overlap hypothesis of the claim is simply carried along). -/
theorem c4_num_edges_eq_get_all_length (fs : FS) (net : LightNetwork)
    (h : NoOverlap fs net) :
    get_num_edges fs net = (get_all fs net).length := by
  simp [get_num_edges, get_all]

/-- Witness for C4 at a concrete one-file network. -/
theorem c4_witness :
    NoOverlap fsOne netOne ∧
      get_num_edges fsOne netOne = (get_all fsOne netOne).length :=
  ⟨by unfold NoOverlap constituentRows; decide,
   c4_num_edges_eq_get_all_length fsOne netOne
     (by unfold NoOverlap constituentRows; decide)⟩

/-- C5: whenever construction reaches the existence loop (the earlier
argument, resolution and schema checks pass) and any resolved or explicit
path is absent from the filesystem, `__init__` raises `FileNotFoundError`
during construction, before any query runs. -/
theorem c5_missing_file_raises_not_found (fs : FS) (env : Env)
    (gn : Option String) (sns files fl : List String) (df : Option Table)
    (f : String)
    (h1 : ¬(gn = none ∧ sns ≠ []))
    (h2 : resolveFiles env gn sns files = .ok fl)
    (h3 : dfSchemaOk df = true)
    (h4 : f ∈ fl) (h5 : fs f = none) :
    init fs env gn sns files df = .error .notFound := by
  have hne : ¬(fl = [] ∧ df = none) := fun hc => (List.ne_nil_of_mem h4) hc.1
  have hall : fl.all (fun x => (fs x).isSome) = false := by
    rw [List.all_eq_false]
    exact ⟨f, h4, by simp [h5]⟩
  simp [init, h1, h2, hne, h3, hall]

/-- Witness for C5: an explicit path absent from the empty filesystem. -/
theorem c5_witness :
    init fsEmpty envEmpty none [] ["missing.parquet"] none =
      .error .notFound :=
  c5_missing_file_raises_not_found fsEmpty envEmpty none [] ["missing.parquet"]
    ["missing.parquet"] none "missing.parquet" (by decide) rfl rfl
    (by decide) rfl

/-- C6 counterexample: the claim says a file-backed constituent with
non-contract columns is rejected with a schema error at construction time,
but `__init__` checks the columns of the in-memory DataFrame only: a network
over a file whose columns are `["foo", "bar"]` (which indeed violate the
contract, second conjunct) is constructed successfully. -/
theorem c6_counterexample_file_schema_unchecked :
    init fsBad envEmpty none [] ["bad.parquet"] none =
        .ok ⟨["bad.parquet"], none⟩ ∧
      schemaOk tBadCols = false :=
  ⟨rfl, by decide⟩

/-- C6 as amended: only for the in-memory table are columns validated at
construction: supplying a DataFrame whose columns violate the contract makes
`__init__` fail with the schema assertion. -/
theorem c6_df_bad_schema_raises (fs : FS) (env : Env) (gn : Option String)
    (sns files fl : List String) (t : Table)
    (h1 : ¬(gn = none ∧ sns ≠ []))
    (h2 : resolveFiles env gn sns files = .ok fl)
    (h3 : schemaOk t = false) :
    init fs env gn sns files (some t) = .error .schemaError := by
  simp [init, h1, h2, dfSchemaOk, h3]

/-- Witness for the amended C6: constructing with the bad-columned DataFrame
alone fails with the schema error. -/
theorem c6_witness :
    init fsEmpty envEmpty none [] [] (some tBadCols) = .error .schemaError :=
  c6_df_bad_schema_raises fsEmpty envEmpty none [] [] [] tBadCols (by decide)
    rfl (by decide)

/-- C7: the three `InvalidArgument` cases: a non-queryable field given to
`get_all_one_field`, construction with none of a named source, files, or a
DataFrame, and a save path whose lowercase form does not end in
`.parquet`. -/
theorem c7_invalid_argument_cases :
    (∀ (fs : FS) (net : LightNetwork) (field : String),
        ¬(field = "regulator" ∨ field = "target" ∨ field = "cell_type") →
        get_all_one_field fs net field = .error .invalidArgument) ∧
    (∀ (fs : FS) (env : Env) (sns : List String),
        init fs env none sns [] none = .error .invalidArgument) ∧
    (∀ (fs : FS) (net : LightNetwork) (filename : String),
        pyEndsWith (pyLower filename) ".parquet" = false →
        save fs net filename = .error .invalidArgument) := by
  refine ⟨?_, ?_, ?_⟩
  · intro fs net field h
    simp [get_all_one_field, h]
  · intro fs env sns
    cases sns <;> rfl
  · intro fs net filename h
    simp [save, h]

/-- Witness for C7: the three cases at concrete inputs. -/
theorem c7_witness :
    get_all_one_field fsOne netOne "weight" = .error .invalidArgument ∧
    init fsOne envEmpty none [] [] none = .error .invalidArgument ∧
    save fsOne netOne "out.csv" = .error .invalidArgument :=
  ⟨c7_invalid_argument_cases.1 fsOne netOne "weight" (by decide),
   c7_invalid_argument_cases.2.1 fsOne envEmpty [],
   c7_invalid_argument_cases.2.2 fsOne netOne "out.csv" (by decide)⟩

/-- C9: the claim describes the intended behaviour of `validate_grn`
(`ValidationError` when distinct regulators outnumber distinct targets,
`True` otherwise), but the code can never reach either outcome:
`grn_df[:, "regulator"]` is invalid pandas indexing and raises `TypeError`
for every DataFrame (and the `grn_df is None` path passes an unsupported
`do_validate` keyword, also a `TypeError`).  Evaluated at a contract-obeying
one-row table the claim demands `True`; the code raises. -/
theorem c9_validate_grn_always_typeerror :
    validate_grn "celloracle_human" "bcell" (some tGood) = .error .typeError ∧
    (∀ (gn sn : String) (d : Option Table),
        validate_grn gn sn d = .error .typeError) := by
  refine ⟨rfl, ?_⟩
  intro gn sn d
  cases d <;> rfl

/-- C10: a non-empty subnetwork list without a source name raises the
`ValueError` at the very first check of `__init__`: the result is the same
for every filesystem and every environment (so no file access or resolution
is involved), and also when files and a DataFrame are supplied. -/
theorem c10_subnetworks_without_source (fs : FS) (env : Env)
    (sns files : List String) (df : Option Table) (h : sns ≠ []) :
    init fs env none sns files df = .error .invalidArgument := by
  unfold init
  rw [if_pos ⟨rfl, h⟩]

/-- Witness for C10: concrete subnetwork list, with a file and a DataFrame
also supplied, over the empty filesystem and environment. -/
theorem c10_witness :
    init fsEmpty envEmpty none ["x"] ["a.parquet"] (some tGood) =
      .error .invalidArgument :=
  c10_subnetworks_without_source fsEmpty envEmpty ["x"] ["a.parquet"]
    (some tGood) (by decide)

/-- C2 counterexample: the claim quantifies over every string value, but for
the spec-flagged injected value `vInj` (which contains quote characters and
is the target of no row) the interpolated predicate degenerates to a
tautology: `get_regulators` returns the row of the constituent even though
its target differs from the filter value and the value is absent from every
constituent, so the result is neither "exactly the matching rows" nor
empty. -/
theorem c2_counterexample_injected_value :
    get_regulators fsOne netOne vInj = .ok [rowG1] ∧
      rowG1.target ≠ vInj ∧
      (∀ rs ∈ constituentRows fsOne netOne, ∀ r ∈ rs, r.target ≠ vInj) :=
  ⟨rfl, by decide, by unfold constituentRows; decide⟩

/-- C2 as amended: for every filter value containing no quote character
(so the interpolated predicate is not corrupted), `get_regulators(v)`
succeeds and returns exactly the rows of the constituents whose target
column equals `v`, `get_targets(v)` exactly those whose regulator column
equals `v`, and both results are empty when `v` is absent from every
constituent. -/
theorem c2_quote_free_filter_exact (fs : FS) (net : LightNetwork) (v : String)
    (h : sq ∉ v.data) :
    (∃ l, get_regulators fs net v = .ok l ∧
        ∀ r : Row, r ∈ l ↔
          ∃ rs ∈ constituentRows fs net, r ∈ rs ∧ r.target = v) ∧
    (∃ l, get_targets fs net v = .ok l ∧
        ∀ r : Row, r ∈ l ↔
          ∃ rs ∈ constituentRows fs net, r ∈ rs ∧ r.regulator = v) ∧
    ((∀ rs ∈ constituentRows fs net, ∀ r ∈ rs, r.target ≠ v) →
        get_regulators fs net v = .ok []) ∧
    ((∀ rs ∈ constituentRows fs net, ∀ r ∈ rs, r.regulator ≠ v) →
        get_targets fs net v = .ok []) := by
  by_cases hemp : net.files = [] ∧ net.df = none
  · have hC : constituentRows fs net = [] := by
      simp [constituentRows, hemp.1, hemp.2]
    refine ⟨⟨[], ?_, ?_⟩, ⟨[], ?_, ?_⟩, ?_, ?_⟩
    · simp [get_regulators, hemp.1, hemp.2]
    · simp [hC]
    · simp [get_targets, hemp.1, hemp.2]
    · simp [hC]
    · intro habs
      simp [get_regulators, hemp.1, hemp.2]
    · intro habs
      simp [get_targets, hemp.1, hemp.2]
  · have hparse := parseInterpolated_no_quote h
    have hget : get_regulators fs net v =
        .ok (filterQuery fs net (fun r => r.target == v)) := by
      simp [get_regulators, hemp, hparse, evalPred_no_clause]
    have hget2 : get_targets fs net v =
        .ok (filterQuery fs net (fun r => r.regulator == v)) := by
      simp [get_targets, hemp, hparse, evalPred_no_clause]
    have hmem : ∀ r : Row, r ∈ filterQuery fs net (fun r => r.target == v) ↔
        ∃ rs ∈ constituentRows fs net, r ∈ rs ∧ r.target = v := by
      intro r
      simp only [mem_filterQuery, beq_iff_eq, exists_mem_and_iff,
        exists_constituent_iff]
    have hmem2 : ∀ r : Row,
        r ∈ filterQuery fs net (fun r => r.regulator == v) ↔
          ∃ rs ∈ constituentRows fs net, r ∈ rs ∧ r.regulator = v := by
      intro r
      simp only [mem_filterQuery, beq_iff_eq, exists_mem_and_iff,
        exists_constituent_iff]
    refine ⟨⟨_, hget, hmem⟩, ⟨_, hget2, hmem2⟩, ?_, ?_⟩
    · intro habs
      have hnil : filterQuery fs net (fun r => r.target == v) = [] := by
        rw [List.eq_nil_iff_forall_not_mem]
        intro r hr
        obtain ⟨rs, hrs, hmemr, ht⟩ := (hmem r).mp hr
        exact habs rs hrs r hmemr ht
      rw [hget, hnil]
    · intro habs
      have hnil : filterQuery fs net (fun r => r.regulator == v) = [] := by
        rw [List.eq_nil_iff_forall_not_mem]
        intro r hr
        obtain ⟨rs, hrs, hmemr, ht⟩ := (hmem2 r).mp hr
        exact habs rs hrs r hmemr ht
      rw [hget2, hnil]

/-- Witness for the amended C2 at a concrete network and a quote-free
absent value. -/
theorem c2_witness :
    get_regulators fsOne netOne "absent" = .ok [] :=
  (c2_quote_free_filter_exact fsOne netOne "absent" (by decide)).2.2.1 (by
    unfold constituentRows
    decide)

/-- C3: for a queryable field, `get_all_one_field` succeeds with a
duplicate-free list whose members are exactly the values of that column over
the constituents that have the column; constituents lacking it contribute
nothing and cause no error. -/
theorem c3_one_field_distinct_union (fs : FS) (net : LightNetwork)
    (field : String)
    (h : field = "regulator" ∨ field = "target" ∨ field = "cell_type") :
    ∃ l, get_all_one_field fs net field = .ok l ∧ l.Nodup ∧
      ∀ s : String, s ∈ l ↔
        ∃ t ∈ constituentTables fs net, field ∈ t.columns ∧
          ∃ r ∈ t.rows, projField field r = s := by
  unfold get_all_one_field
  rw [if_pos h]
  refine ⟨_, rfl, List.nodup_dedup _, ?_⟩
  intro s
  rw [List.mem_dedup, List.mem_append, mem_one_field_files, mem_dfOneField]
  constructor
  · rintro (⟨t, ⟨ht1, ht2⟩, hrest⟩ | ⟨t, hdf, ht2, hrest⟩)
    · obtain ⟨p, hp, rfl⟩ := List.mem_map.mp ht1
      exact ⟨readTable fs p, mem_constituentTables.mpr (.inl ⟨p, hp, rfl⟩),
        ht2, hrest⟩
    · exact ⟨t, mem_constituentTables.mpr (.inr hdf), ht2, hrest⟩
  · rintro ⟨t, ht, ht2, hrest⟩
    rcases mem_constituentTables.mp ht with ⟨p, hp, rfl⟩ | hdf
    · exact .inl ⟨readTable fs p, ⟨List.mem_map_of_mem _ hp, ht2⟩, hrest⟩
    · exact .inr ⟨t, hdf, ht2, hrest⟩

/-- Witness for C3 on a concrete network and the `regulator` field. -/
theorem c3_witness :
    ∃ l, get_all_one_field fsOne netOne "regulator" = .ok l ∧ l.Nodup ∧
      ∀ s : String, s ∈ l ↔
        ∃ t ∈ constituentTables fsOne netOne, "regulator" ∈ t.columns ∧
          ∃ r ∈ t.rows, projField "regulator" r = s :=
  c3_one_field_distinct_union fsOne netOne "regulator" (by decide)

/-- C8: from any successfully constructed network, `copy()` succeeds and
returns an instance with the same files list and the same DataFrame (the
constituents are shared, not duplicated); it depends on the filesystem only
through existence of the paths, never their contents (no I/O beyond the
existence check of the constructor); and `get_all` of the copy is
row-for-row equal to `get_all` of the original. -/
theorem c8_copy_shares_constituents (fs : FS) (env : Env) (gn : Option String)
    (sns files : List String) (df : Option Table) (net : LightNetwork)
    (h : init fs env gn sns files df = .ok net) :
    copy fs env net = .ok net ∧
    (∀ fs₂ : FS, (∀ p, (fs₂ p).isSome = (fs p).isSome) →
        copy fs₂ env net = .ok net) ∧
    (∀ net₂, copy fs env net = .ok net₂ → get_all fs net₂ = get_all fs net) := by
  obtain ⟨hdf, hne, hschema, hall⟩ := init_ok_inv h
  have key : ∀ fs₂ : FS, (∀ p, (fs₂ p).isSome = (fs p).isSome) →
      copy fs₂ env net = .ok net := by
    intro fs₂ hfs
    have hall₂ : net.files.all (fun f => (fs₂ f).isSome) = true := by
      rw [List.all_eq_true] at hall ⊢
      intro f hf
      rw [hfs f]
      exact hall f hf
    have hne₂ : ¬(net.files = [] ∧ net.df = none) := by
      rw [hdf]; exact hne
    have hschema₂ : dfSchemaOk net.df = true := by
      rw [hdf]; exact hschema
    simp [copy, init, resolveFiles, hne₂, hschema₂, hall₂]
  refine ⟨key fs (fun p => rfl), key, ?_⟩
  intro net₂ h₂
  rw [key fs (fun p => rfl)] at h₂
  injection h₂ with h₃
  rw [← h₃]

/-- Witness for C8: copying the concrete one-file network reproduces it. -/
theorem c8_witness :
    copy fsOne envEmpty netOne = .ok netOne :=
  (c8_copy_shares_constituents fsOne envEmpty none [] ["a.parquet"] none
    netOne rfl).1

end Pereggrn
